import Mathlib

/-!
# Verification of the tibet-audit scan engine

Shallow embedding of `src/tibet_audit/scanner.py` (the `TIBETAudit` class and
`ScanResult` dataclass) together with the check-result data model it consumes.

The Python float `deductions` only ever holds exact multiples of 1/2 here
(non-negative integer impacts, added either whole or once multiplied by `0.5`,
all far below the float-exactness bound), so it is embedded exactly by its
double `deductions2 : ℕ`; the score `max(0, int(100 - deductions))` becomes
`max 0 (pyIntHalf (200 - deductions2))`, where `pyIntHalf n` is Python's
`int(n / 2)` — truncation toward zero of the exact half-integer `n / 2`.
`pyIntQ` states the same conversion on ℚ for spec-side comparison.

The module `checks/base.py` (defining `CheckResult`, `Status`, `Severity`,
`FixAction` and the `can_auto_fix` property) is not part of the provided
sources; those definitions are modelled from the spec where noted.
-/

/-- Status enum of a check result: `{PASSED, WARNING, FAILED, SKIPPED}`
(from `checks/base.py` via the spec's data model, used throughout
`scanner.py`). -/
inductive Status where
  | PASSED
  | WARNING
  | FAILED
  | SKIPPED
deriving DecidableEq, Repr

/-- Severity enum, ordered info < low < medium < high < critical
(spec data model; only carried as data by the scanner). -/
inductive Severity where
  | INFO
  | LOW
  | MEDIUM
  | HIGH
  | CRITICAL
deriving DecidableEq, Repr

/-- Structured remediation descriptor attached to a check result
(spec data model: description, command, confirmation flag, risk level). -/
structure FixAction where
  description : String
  command : String
  requires_confirmation : Bool
  risk_level : String
deriving DecidableEq, Repr

/-- The outcome of running one check (spec data model for `CheckResult` in
`checks/base.py`; field set as used by `scanner.py` and the checks). -/
structure CheckResult where
  check_id : String
  name : String
  status : Status
  severity : Severity
  message : String
  recommendation : Option String := none
  references : List String := []
  fix_action : Option FixAction := none
  score_impact : Nat
deriving DecidableEq, Repr

/-- Modelled from the spec: the `can_auto_fix` property of `CheckResult` in
the missing `checks/base.py`. The spec states: presence of a non-null
`fix_action` with a non-empty command is what makes a result auto-fixable,
independent of status. -/
def CheckResult.can_auto_fix (r : CheckResult) : Bool :=
  match r.fix_action with
  | some fa => fa.command != ""
  | none => false

/-- The shared context passed to every check in one scan
(`scanner.py` lines 64-67): resolved scan path and the companion-capability
flag. -/
structure Context where
  scan_path : String
  tibet_available : Bool
deriving DecidableEq, Repr

/-- A check of the registry (external contract: identity, classification,
weight and a `run` capability). A Python exception raised by `run` is
embedded as `Except.error` carrying the exception text `str(e)`. -/
structure Check where
  check_id : String
  name : String
  description : String := ""
  category : String
  severity : Severity
  score_weight : Nat := 0
  run : Context → Except String CheckResult

/-- Complete scan result (`ScanResult` dataclass, `scanner.py` lines 11-28).
The wall-clock fields `timestamp` and `duration_seconds` are not modelled. -/
structure ScanResult where
  scan_path : String
  score : Int
  grade : String
  passed : Nat
  warnings : Nat
  failed : Nat
  skipped : Nat
  results : List CheckResult

/-- `ScanResult.fixable_count` (`scanner.py` lines 25-28):
`sum(1 for r in self.results if r.can_auto_fix and r.status != Status.PASSED)`. -/
def ScanResult.fixable_count (s : ScanResult) : Nat :=
  s.results.countP (fun r => r.can_auto_fix && r.status != Status.PASSED)

namespace TIBETAudit

/-- Python `int()` conversion on an exact rational: truncation toward zero. -/
def pyIntQ (q : ℚ) : ℤ :=
  if q < 0 then ⌈q⌉ else ⌊q⌋

/-- Python `int(n / 2)` for an integer `n`: truncation toward zero of the
exact value `n / 2` (Lean's `Int` division rounds toward −∞, hence the sign
split; both branches divide a non-negative integer). -/
def pyIntHalf (n : ℤ) : ℤ :=
  if n < 0 then -(-n / 2) else n / 2

/-- The deduction accumulation loop of `_calculate_score`
(`scanner.py` lines 117-123), embedded exactly at double scale: `deductions`
starts at 0; each FAILED result adds its full `score_impact` (doubled here),
each WARNING result adds `score_impact * 0.5` (so here the impact itself). -/
def deductions2 (results : List CheckResult) : Nat :=
  results.foldl
    (fun acc r =>
      match r.status with
      | Status.FAILED => acc + 2 * r.score_impact
      | Status.WARNING => acc + r.score_impact
      | _ => acc)
    0

/-- `TIBETAudit._calculate_score` (`scanner.py` lines 114-139):
`score = max(0, int(max_score - deductions))` — at double scale
`max 0 (pyIntHalf (2 * max_score - deductions2))` — then the grade ladder. -/
def calculate_score (results : List CheckResult) : ℤ × String :=
  let max_score : ℤ := 100
  let score : ℤ := max 0 (pyIntHalf (2 * max_score - (deductions2 results : ℤ)))
  let grade : String :=
    if score ≥ 90 then "A"
    else if score ≥ 80 then "B"
    else if score ≥ 70 then "C"
    else if score ≥ 60 then "D"
    else "F"
  (score, grade)

/-- `TIBETAudit._check_tibet_available` (`scanner.py` lines 141-147): the
attempted `import tibet_vault` is embedded as its outcome; `ImportError`
degrades to `false`. -/
def check_tibet_available (tibet_import : Except String Unit) : Bool :=
  match tibet_import with
  | Except.ok _ => true
  | Except.error _ => false

/-- Category filter of the scan loop (`scanner.py` line 73):
`if categories and check.category not in categories: continue`.
A check proceeds iff `categories` is falsy (None or the empty list) or the
check's category is a member. -/
def eligible (categories : Option (List String)) (check : Check) : Bool :=
  match categories with
  | none => true
  | some cats => cats.isEmpty || cats.contains check.category

/-- One iteration body of the scan loop (`scanner.py` lines 76-88): run the
check; on an exception, synthesize a SKIPPED result with the check's
identity, message `"Check failed to run: " ++ str(e)` and `score_impact 0`. -/
def run_one (context : Context) (check : Check) : CheckResult :=
  match check.run context with
  | Except.ok result => result
  | Except.error e =>
      { check_id := check.check_id
        name := check.name
        status := Status.SKIPPED
        severity := check.severity
        message := "Check failed to run: " ++ e
        score_impact := 0 }

/-- The scan loop (`scanner.py` lines 70-88): iterate the registry in order,
skip filtered-out checks, append one result per remaining check. -/
def run_checks (checks : List Check) (context : Context)
    (categories : Option (List String)) : List CheckResult :=
  match checks with
  | [] => []
  | check :: rest =>
      if eligible categories check then
        run_one context check :: run_checks rest context categories
      else
        run_checks rest context categories

/-- `TIBETAudit.scan` (`scanner.py` lines 47-112). The two effectful
environment interactions are embedded as their outcomes: `resolved_path` is
the result of `Path(path).resolve()` (which may raise, before any check
runs), `tibet_import` the result of the `import tibet_vault` attempt. -/
def scan (checks : List Check) (resolved_path : Except String String)
    (tibet_import : Except String Unit)
    (categories : Option (List String)) : Except String ScanResult :=
  match resolved_path with
  | Except.error e => Except.error e
  | Except.ok scan_path =>
      let context : Context :=
        { scan_path := scan_path
          tibet_available := check_tibet_available tibet_import }
      let results := run_checks checks context categories
      let sg := calculate_score results
      Except.ok
        { scan_path := scan_path
          score := sg.1
          grade := sg.2
          passed := results.countP (fun r => r.status == Status.PASSED)
          warnings := results.countP (fun r => r.status == Status.WARNING)
          failed := results.countP (fun r => r.status == Status.FAILED)
          skipped := results.countP (fun r => r.status == Status.SKIPPED)
          results := results }

/-- `TIBETAudit.get_fixable_issues` (`scanner.py` lines 149-151). -/
def get_fixable_issues (results : List CheckResult) : List CheckResult :=
  results.filter (fun r => r.can_auto_fix && r.status != Status.PASSED)

end TIBETAudit

/-! ## Spec-side definitions

These restate what the specification claims, in the spec's own terms, for
comparison with the source-derived definitions above. -/

/-- Spec-side per-result deduction, as the spec words it: the full
`score_impact` for FAILED, exactly half of it for WARNING, zero for PASSED
and SKIPPED regardless of `score_impact`. -/
def spec_deduction (r : CheckResult) : ℚ :=
  match r.status with
  | Status.FAILED => (r.score_impact : ℚ)
  | Status.WARNING => (r.score_impact : ℚ) / 2
  | _ => 0

/-- Spec-side grade ladder: inclusive lower bounds ≥90→A, ≥80→B, ≥70→C,
≥60→D, else F, evaluated on the clamped integer score. -/
def spec_grade (score : ℤ) : String :=
  if score ≥ 90 then "A"
  else if score ≥ 80 then "B"
  else if score ≥ 70 then "C"
  else if score ≥ 60 then "D"
  else "F"

/-- Spec-side eligibility, as claim C4 words it: a check is eligible iff the
allow-list is absent or the check's category is a member of the allow-list
(note: no special case for a present-but-empty allow-list). -/
def spec_eligible (categories : Option (List String)) (check : Check) : Bool :=
  match categories with
  | none => true
  | some cats => cats.contains check.category

/-- Per-result contribution to the doubled deduction total. -/
def TIBETAudit.resultDeduction2 (r : CheckResult) : Nat :=
  match r.status with
  | Status.FAILED => 2 * r.score_impact
  | Status.WARNING => r.score_impact
  | _ => 0

/-! ## Concrete fixtures

Result and check values used by the spec's worked examples and by the
witnesses below. -/

/-- FAILED result with `score_impact` 20 (spec worked example). -/
def rFailed20 : CheckResult :=
  { check_id := "EX-1", name := "failing check", status := Status.FAILED
    severity := Severity.HIGH, message := "failed", score_impact := 20 }

/-- WARNING result with `score_impact` 10 (spec worked example). -/
def rWarning10 : CheckResult :=
  { check_id := "EX-2", name := "warning check", status := Status.WARNING
    severity := Severity.MEDIUM, message := "warned", score_impact := 10 }

/-- PASSED result with `score_impact` 50 (spec worked example: PASSED must
contribute zero deduction despite the large impact). -/
def rPassed50 : CheckResult :=
  { check_id := "EX-3", name := "passing check", status := Status.PASSED
    severity := Severity.LOW, message := "ok", score_impact := 50 }

/-- SKIPPED result with `score_impact` 999 (spec worked example: SKIPPED must
contribute zero deduction despite the large impact). -/
def rSkipped999 : CheckResult :=
  { check_id := "EX-4", name := "skipped check", status := Status.SKIPPED
    severity := Severity.INFO, message := "skipped", score_impact := 999 }

/-- The spec's worked example list. -/
def exampleResults : List CheckResult :=
  [rFailed20, rWarning10, rPassed50, rSkipped999]

/-- A single WARNING with odd `score_impact` 5 (spec truncation example). -/
def rWarning5 : CheckResult :=
  { check_id := "EX-5", name := "odd warning", status := Status.WARNING
    severity := Severity.LOW, message := "warned", score_impact := 5 }

/-- FAILED result with `score_impact` 10 (escalated twin of `rWarning10`). -/
def rFailed10 : CheckResult :=
  { check_id := "EX-2", name := "warning check", status := Status.FAILED
    severity := Severity.MEDIUM, message := "warned", score_impact := 10 }

/-- A single FAILED with `score_impact` 150 (spec clamping example). -/
def rFailed150 : CheckResult :=
  { check_id := "EX-6", name := "huge failure", status := Status.FAILED
    severity := Severity.CRITICAL, message := "failed", score_impact := 150 }

/-- A PASSED result carrying a fix action (must be excluded from the
fixable subset). -/
def rPassedFix : CheckResult :=
  { check_id := "EX-7", name := "passed with fix", status := Status.PASSED
    severity := Severity.LOW, message := "ok"
    fix_action := some { description := "install companion"
                         command := "pip install tibet-vault"
                         requires_confirmation := true, risk_level := "low" }
    score_impact := 0 }

/-- A WARNING result carrying a fix action (fixable). -/
def rWarningFix : CheckResult :=
  { check_id := "EX-8", name := "warning with fix", status := Status.WARNING
    severity := Severity.MEDIUM, message := "warned"
    fix_action := some { description := "install companion"
                         command := "pip install tibet-vault"
                         requires_confirmation := true, risk_level := "low" }
    score_impact := 10 }

/-- A fixed context for concrete runs. -/
def ctx0 : Context := { scan_path := "/project", tibet_available := false }

/-- A gdpr-category check that runs successfully. -/
def checkGdpr1 : Check :=
  { check_id := "GDPR-001", name := "gdpr one", category := "gdpr"
    severity := Severity.HIGH
    run := fun _ => Except.ok rPassed50 }

/-- An ai_act-category check that runs successfully. -/
def checkAiAct : Check :=
  { check_id := "AI-001", name := "ai act one", category := "ai_act"
    severity := Severity.MEDIUM
    run := fun _ => Except.ok rWarning10 }

/-- A second gdpr-category check that runs successfully. -/
def checkGdpr2 : Check :=
  { check_id := "GDPR-002", name := "gdpr two", category := "gdpr"
    severity := Severity.LOW
    run := fun _ => Except.ok rWarning5 }

/-- A check whose `run` raises (embedded as `Except.error`). -/
def checkBoom : Check :=
  { check_id := "BOOM-001", name := "exploding check", category := "gdpr"
    severity := Severity.CRITICAL
    run := fun _ => Except.error "division by zero" }

/-- The status moves claim C7 quantifies over: one result's status advances
along the chain PASSED → WARNING → FAILED. -/
inductive StatusEscalation : Status → Status → Prop where
  | passed_warning : StatusEscalation Status.PASSED Status.WARNING
  | warning_failed : StatusEscalation Status.WARNING Status.FAILED
  | passed_failed : StatusEscalation Status.PASSED Status.FAILED

/-- The ScanResult produced by a scan of the empty registry at path
"/project" with the companion import failing. -/
def scanEmptyResult : ScanResult :=
  { scan_path := "/project", score := 100, grade := "A"
    passed := 0, warnings := 0, failed := 0, skipped := 0, results := [] }

/-! ## Helper lemmas -/

namespace TIBETAudit

theorem deductions2_foldl (l : List CheckResult) (a : Nat) :
    l.foldl
      (fun acc r =>
        match r.status with
        | Status.FAILED => acc + 2 * r.score_impact
        | Status.WARNING => acc + r.score_impact
        | _ => acc)
      a = a + (l.map resultDeduction2).sum := by
  induction l generalizing a with
  | nil => simp
  | cons r t ih =>
      rcases hr : r.status <;>
        simp [List.foldl_cons, ih, resultDeduction2, hr] <;> omega

theorem deductions2_eq_sum (l : List CheckResult) :
    deductions2 l = (l.map resultDeduction2).sum := by
  simpa [deductions2] using deductions2_foldl l 0

theorem calculate_score_fst (l : List CheckResult) :
    (calculate_score l).1 = max 0 (pyIntHalf (200 - (deductions2 l : ℤ))) := rfl

theorem calculate_score_snd (l : List CheckResult) :
    (calculate_score l).2 = spec_grade (calculate_score l).1 := rfl

theorem pyIntHalf_mono {m n : ℤ} (h : m ≤ n) : pyIntHalf m ≤ pyIntHalf n := by
  unfold pyIntHalf
  split <;> split <;> omega

/-- `pyIntQ` of an exact half-integer agrees with `pyIntHalf` of its double. -/
theorem pyIntQ_half (n : ℤ) : pyIntQ ((n : ℚ) / 2) = pyIntHalf n := by
  have h2 : ((2 : ℕ) : ℚ) = (2 : ℚ) := by norm_num
  rcases lt_or_le n 0 with hn | hn
  · have hq : ((n : ℚ) / 2) < 0 := by
      apply div_neg_of_neg_of_pos _ (by norm_num)
      exact_mod_cast hn
    have hfloor : (⌊((-n : ℤ) : ℚ) / ((2 : ℕ) : ℚ)⌋ : ℤ) = (-n) / 2 :=
      Rat.floor_intCast_div_natCast (-n) 2
    have : pyIntQ ((n : ℚ) / 2) = ⌈(n : ℚ) / 2⌉ := by simp [pyIntQ, hq]
    rw [this, show ((n : ℚ) / 2) = -(((-n : ℤ) : ℚ) / 2) by push_cast; ring,
      Int.ceil_neg, show ((2 : ℚ)) = ((2 : ℕ) : ℚ) by norm_num, hfloor]
    simp [pyIntHalf, hn]
  · have hq : ¬ ((n : ℚ) / 2) < 0 := by
      apply not_lt.mpr
      apply div_nonneg _ (by norm_num)
      exact_mod_cast hn
    have hfloor : (⌊((n : ℤ) : ℚ) / ((2 : ℕ) : ℚ)⌋ : ℤ) = n / 2 :=
      Rat.floor_intCast_div_natCast n 2
    rw [pyIntQ, if_neg hq, show ((2 : ℚ)) = ((2 : ℕ) : ℚ) by norm_num, hfloor]
    simp [pyIntHalf, not_lt.mpr (by exact_mod_cast hn : (0 : ℤ) ≤ n)]

theorem spec_deduction_eq_half (r : CheckResult) :
    spec_deduction r = (resultDeduction2 r : ℚ) / 2 := by
  rcases hr : r.status <;> simp [spec_deduction, resultDeduction2, hr]

theorem spec_deduction_sum (l : List CheckResult) :
    (l.map spec_deduction).sum = ((deductions2 l : ℤ) : ℚ) / 2 := by
  rw [deductions2_eq_sum]
  induction l with
  | nil => simp
  | cons r t ih => simp [spec_deduction_eq_half, ih]; ring

/-- The four statuses partition any result list. -/
theorem countP_status_sum (l : List CheckResult) :
    l.countP (fun r => r.status == Status.PASSED)
      + l.countP (fun r => r.status == Status.WARNING)
      + l.countP (fun r => r.status == Status.FAILED)
      + l.countP (fun r => r.status == Status.SKIPPED) = l.length := by
  induction l with
  | nil => simp
  | cons r t ih =>
      rcases hr : r.status <;> simp [List.countP_cons, hr] <;> omega

/-- The doubled deduction total, split by status. -/
theorem deductions2_filter (l : List CheckResult) :
    deductions2 l
      = 2 * ((l.filter (fun r => r.status == Status.FAILED)).map
              (fun r => r.score_impact)).sum
        + ((l.filter (fun r => r.status == Status.WARNING)).map
            (fun r => r.score_impact)).sum := by
  rw [deductions2_eq_sum]
  induction l with
  | nil => simp
  | cons r t ih =>
      rcases hr : r.status <;>
        simp [List.filter_cons, hr, resultDeduction2, ih] <;> ring

/-- The scan loop is the filtered registry mapped through one run each. -/
theorem run_checks_eq_filter_map (checks : List Check) (context : Context)
    (categories : Option (List String)) :
    run_checks checks context categories
      = (checks.filter (eligible categories)).map (run_one context) := by
  induction checks with
  | nil => rfl
  | cons c t ih =>
      by_cases hc : eligible categories c
      · simp [run_checks, hc, List.filter_cons, ih]
      · simp [run_checks, hc, List.filter_cons, ih]

end TIBETAudit

/-! ## Claim theorems -/

/-- C1: the scoring function starts from 100, subtracts the full
`score_impact` of each FAILED result and exactly half the `score_impact` of
each WARNING result, while PASSED and SKIPPED results contribute zero
deduction regardless of their `score_impact`; the grade is determined from
the final clamped integer score by the inclusive lower bounds ≥90→A, ≥80→B,
≥70→C, ≥60→D, else F; and the list
[FAILED(20), WARNING(10), PASSED(50), SKIPPED(999)] yields (75, "C"). -/
theorem C1_score_formula_grade_example :
    (∀ results : List CheckResult,
        (TIBETAudit.calculate_score results).1
          = max 0 (TIBETAudit.pyIntQ (100 - (results.map spec_deduction).sum))
        ∧ (TIBETAudit.calculate_score results).2
          = spec_grade (TIBETAudit.calculate_score results).1)
    ∧ TIBETAudit.calculate_score exampleResults = (75, "C") := by
  constructor
  · intro results
    refine ⟨?_, TIBETAudit.calculate_score_snd results⟩
    rw [TIBETAudit.calculate_score_fst]
    have h : (100 : ℚ) - (results.map spec_deduction).sum
        = (((200 - (TIBETAudit.deductions2 results : ℤ)) : ℤ) : ℚ) / 2 := by
      rw [TIBETAudit.spec_deduction_sum]
      push_cast
      ring
    rw [h, TIBETAudit.pyIntQ_half]
  · decide

/-- C3 counterexample: a result list holding a single WARNING with odd
`score_impact` 5 scores 97, not the 98 = 100 − ⌊5/2⌋ the claim states: the
half-deduction 2.5 survives into the total and the final `int()` truncation
of `100 − 2.5 = 97.5` drops the fraction from the score, deducting 3. -/
theorem C3_counterexample_odd_warning :
    (TIBETAudit.calculate_score [rWarning5]).1 = 97
    ∧ (TIBETAudit.calculate_score [rWarning5]).1 ≠ 100 - (5 : ℤ) / 2 := by
  decide

/-- C3 (amended): fractional deductions arising from halving a WARNING
result's `score_impact` are truncated out of the final score (which rounds
the deduction up, not down): for every result list containing a single
WARNING result with odd `score_impact` and no FAILED results, the score is
`100 − (score_impact + 1) / 2` clamped at 0 — in particular a single warning
with `score_impact` 5 deducts 3 points (score 97), not 2. -/
theorem C3_amended_odd_warning_truncation (results : List CheckResult)
    (w : CheckResult)
    (hW : results.filter (fun r => r.status == Status.WARNING) = [w])
    (hF : results.filter (fun r => r.status == Status.FAILED) = [])
    (hodd : w.score_impact % 2 = 1) :
    (TIBETAudit.calculate_score results).1
      = max 0 (100 - ((w.score_impact : ℤ) + 1) / 2) := by
  rw [TIBETAudit.calculate_score_fst, TIBETAudit.deductions2_filter, hW, hF]
  simp only [List.map_nil, List.sum_nil, Nat.mul_zero, List.map_cons,
    List.sum_cons, List.sum_nil, Nat.zero_add, Nat.add_zero]
  unfold TIBETAudit.pyIntHalf
  split <;> omega

/-- C3 witness: the amended statement evaluated at the list holding the
single odd warning with `score_impact` 5. -/
theorem C3_amended_witness :
    (TIBETAudit.calculate_score [rWarning5]).1
      = max 0 (100 - ((rWarning5.score_impact : ℤ) + 1) / 2) :=
  C3_amended_odd_warning_truncation [rWarning5] rWarning5
    (by decide) (by decide) (by decide)

/-- C7: for every result list the computed score lies in [0, 100]; the score
is monotonically non-increasing when any single result's status moves along
PASSED→WARNING→FAILED with its `score_impact` held fixed; and a single
FAILED result with `score_impact` 150 clamps the score to 0 with grade F. -/
theorem C7_bounds_monotone_clamp :
    (∀ results : List CheckResult,
        0 ≤ (TIBETAudit.calculate_score results).1
        ∧ (TIBETAudit.calculate_score results).1 ≤ 100)
    ∧ (∀ (xs ys : List CheckResult) (r r' : CheckResult),
        r'.score_impact = r.score_impact →
        StatusEscalation r.status r'.status →
        (TIBETAudit.calculate_score (xs ++ r' :: ys)).1
          ≤ (TIBETAudit.calculate_score (xs ++ r :: ys)).1)
    ∧ TIBETAudit.calculate_score [rFailed150] = (0, "F") := by
  refine ⟨?_, ?_, by decide⟩
  · intro results
    rw [TIBETAudit.calculate_score_fst]
    have hd : (0 : ℤ) ≤ (TIBETAudit.deductions2 results : ℤ) :=
      Int.ofNat_nonneg _
    unfold TIBETAudit.pyIntHalf
    split <;> omega
  · intro xs ys r r' himp hesc
    rw [TIBETAudit.calculate_score_fst, TIBETAudit.calculate_score_fst]
    have hle : TIBETAudit.resultDeduction2 r ≤ TIBETAudit.resultDeduction2 r' := by
      have key : ∀ (s s' : Status), StatusEscalation s s' → ∀ (a b : CheckResult),
          a.status = s → b.status = s' → b.score_impact = a.score_impact →
          TIBETAudit.resultDeduction2 a ≤ TIBETAudit.resultDeduction2 b := by
        intro s s' hss a b ha hb hib
        cases hss with
        | passed_warning => simp [TIBETAudit.resultDeduction2, ha, hb]
        | warning_failed =>
            simp [TIBETAudit.resultDeduction2, ha, hb, hib]
            omega
        | passed_failed => simp [TIBETAudit.resultDeduction2, ha, hb]
      exact key _ _ hesc r r' rfl rfl himp
    have hsum : TIBETAudit.deductions2 (xs ++ r :: ys)
        ≤ TIBETAudit.deductions2 (xs ++ r' :: ys) := by
      rw [TIBETAudit.deductions2_eq_sum, TIBETAudit.deductions2_eq_sum]
      simp only [List.map_append, List.map_cons, List.sum_append, List.sum_cons]
      omega
    have hmono := TIBETAudit.pyIntHalf_mono
      (show (200 : ℤ) - (TIBETAudit.deductions2 (xs ++ r' :: ys) : ℤ)
          ≤ 200 - (TIBETAudit.deductions2 (xs ++ r :: ys) : ℤ) by omega)
    omega

/-- C7 witness: the monotonicity conjunct applied to the singleton lists for
the WARNING→FAILED escalation at fixed `score_impact` 10. -/
theorem C7_witness :
    (TIBETAudit.calculate_score ([] ++ rFailed10 :: [])).1
      ≤ (TIBETAudit.calculate_score ([] ++ rWarning10 :: [])).1 :=
  C7_bounds_monotone_clamp.2.1 [] [] rWarning10 rFailed10 (by decide)
    StatusEscalation.warning_failed

/-- C10: the scoring function is invariant under permutation of the result
list — computing (score, grade) on a list and on any permutation of it
yields identical results. -/
theorem C10_score_perm_invariant (R R' : List CheckResult) (h : R.Perm R') :
    TIBETAudit.calculate_score R = TIBETAudit.calculate_score R' := by
  have hd : TIBETAudit.deductions2 R = TIBETAudit.deductions2 R' := by
    rw [TIBETAudit.deductions2_eq_sum, TIBETAudit.deductions2_eq_sum]
    exact (h.map _).sum_eq
  simp only [TIBETAudit.calculate_score, hd]

/-- C10 witness: permutation invariance at a concrete two-element list. -/
theorem C10_witness :
    ([rFailed20, rWarning10].Perm [rWarning10, rFailed20])
    ∧ TIBETAudit.calculate_score [rFailed20, rWarning10]
        = TIBETAudit.calculate_score [rWarning10, rFailed20] :=
  ⟨by decide, C10_score_perm_invariant _ _ (by decide)⟩

/-- C2: if a check's `run` raises during a scan, the engine does not
propagate the error: the returned list still has exactly one result per
eligible check in registry order, and the failing check contributes exactly
one synthesized CheckResult with status SKIPPED, `check_id`, `name` and
`severity` copied from the check, a message carrying the underlying error
text, and `score_impact` 0. -/
theorem C2_failure_isolation (checks : List Check) (context : Context)
    (categories : Option (List String)) :
    TIBETAudit.run_checks checks context categories
      = (checks.filter (TIBETAudit.eligible categories)).map
          (TIBETAudit.run_one context)
    ∧ (TIBETAudit.run_checks checks context categories).length
        = (checks.filter (TIBETAudit.eligible categories)).length
    ∧ (∀ (check : Check) (e : String), check.run context = Except.error e →
        TIBETAudit.run_one context check
          = { check_id := check.check_id, name := check.name
              status := Status.SKIPPED, severity := check.severity
              message := "Check failed to run: " ++ e
              recommendation := none, references := [], fix_action := none
              score_impact := 0 }) := by
  refine ⟨TIBETAudit.run_checks_eq_filter_map checks context categories, ?_, ?_⟩
  · rw [TIBETAudit.run_checks_eq_filter_map]
    exact List.length_map _ _
  · intro check e he
    simp [TIBETAudit.run_one, he]

/-- C2 witness: the isolation conjunct applied to the concrete raising check
`checkBoom`. -/
theorem C2_witness :
    TIBETAudit.run_one ctx0 checkBoom
      = { check_id := checkBoom.check_id, name := checkBoom.name
          status := Status.SKIPPED, severity := checkBoom.severity
          message := "Check failed to run: " ++ "division by zero"
          recommendation := none, references := [], fix_action := none
          score_impact := 0 } :=
  (C2_failure_isolation [checkBoom] ctx0 none).2.2 checkBoom
    "division by zero" rfl

/-- C4 counterexample: with the present-but-empty allow-list `some []`, the
claimed eligibility rule (allow-list absent, or category a member) admits no
check, but the code treats an empty list as falsy and runs every check: on a
registry of one gdpr check the scan loop returns one result while the
claim-side eligible count is zero. -/
theorem C4_counterexample_empty_allowlist :
    (TIBETAudit.run_checks [checkGdpr1] ctx0 (some [])).length = 1
    ∧ ([checkGdpr1].filter (spec_eligible (some []))).length = 0 :=
  ⟨rfl, rfl⟩

/-- C4 (amended): a check is eligible iff the allow-list is absent or
*empty*, or the check's category is a member of the allow-list; filtering
preserves original registry order among eligible checks and the returned
list has exactly one entry per eligible check; with filter ["gdpr"] over a
registry of categories {gdpr, ai_act}, exactly the gdpr checks' results are
returned, in registry order. -/
theorem C4_amended_category_filter :
    (∀ (checks : List Check) (context : Context) (cats : Option (List String)),
        TIBETAudit.run_checks checks context cats
          = (checks.filter (fun c =>
              match cats with
              | none => true
              | some l => l.isEmpty || l.contains c.category)).map
              (TIBETAudit.run_one context)
        ∧ (TIBETAudit.run_checks checks context cats).length
            = (checks.filter (fun c =>
                match cats with
                | none => true
                | some l => l.isEmpty || l.contains c.category)).length)
    ∧ TIBETAudit.run_checks [checkGdpr1, checkAiAct, checkGdpr2] ctx0
        (some ["gdpr"])
        = [TIBETAudit.run_one ctx0 checkGdpr1,
           TIBETAudit.run_one ctx0 checkGdpr2] := by
  constructor
  · intro checks context cats
    refine ⟨TIBETAudit.run_checks_eq_filter_map checks context cats, ?_⟩
    rw [TIBETAudit.run_checks_eq_filter_map]
    exact List.length_map _ _
  · rfl

/-- C5: for every ScanResult produced by scan, the passed, warnings, failed
and skipped counts each equal the number of results with the corresponding
status, and their sum equals the length of the result list exactly. -/
theorem C5_counts_partition (checks : List Check)
    (resolved_path : Except String String) (tibet_import : Except String Unit)
    (cats : Option (List String)) (s : ScanResult)
    (h : TIBETAudit.scan checks resolved_path tibet_import cats
        = Except.ok s) :
    s.passed = s.results.countP (fun r => r.status == Status.PASSED)
    ∧ s.warnings = s.results.countP (fun r => r.status == Status.WARNING)
    ∧ s.failed = s.results.countP (fun r => r.status == Status.FAILED)
    ∧ s.skipped = s.results.countP (fun r => r.status == Status.SKIPPED)
    ∧ s.passed + s.warnings + s.failed + s.skipped = s.results.length := by
  cases hp : resolved_path with
  | error e =>
      rw [hp] at h
      exact absurd h (by simp [TIBETAudit.scan])
  | ok sp =>
      rw [hp] at h
      simp only [TIBETAudit.scan, Except.ok.injEq] at h
      subst h
      exact ⟨rfl, rfl, rfl, rfl, TIBETAudit.countP_status_sum _⟩

/-- C5 witness: the counts statement at the concrete scan of the empty
registry. -/
theorem C5_witness :
    scanEmptyResult.passed
      = scanEmptyResult.results.countP (fun r => r.status == Status.PASSED)
    ∧ scanEmptyResult.warnings
        = scanEmptyResult.results.countP (fun r => r.status == Status.WARNING)
    ∧ scanEmptyResult.failed
        = scanEmptyResult.results.countP (fun r => r.status == Status.FAILED)
    ∧ scanEmptyResult.skipped
        = scanEmptyResult.results.countP (fun r => r.status == Status.SKIPPED)
    ∧ scanEmptyResult.passed + scanEmptyResult.warnings
        + scanEmptyResult.failed + scanEmptyResult.skipped
        = scanEmptyResult.results.length :=
  C5_counts_partition [] (Except.ok "/project")
    (Except.error "not installed") none scanEmptyResult rfl

/-- C6: get_fixable_issues returns exactly the results whose fix_action is
non-null with a non-empty command and whose status is not PASSED, preserving
input order; a PASSED result (even one with a fix_action) never appears; and
ScanResult.fixable_count equals the length of this subset for the
ScanResult's own results list. -/
theorem C6_fixable_issues (results : List CheckResult) :
    TIBETAudit.get_fixable_issues results
      = results.filter (fun r =>
          (match r.fix_action with
           | some fa => fa.command != ""
           | none => false) && r.status != Status.PASSED)
    ∧ (∀ r : CheckResult, r.status = Status.PASSED →
        r ∉ TIBETAudit.get_fixable_issues results)
    ∧ (∀ s : ScanResult,
        s.fixable_count = (TIBETAudit.get_fixable_issues s.results).length) := by
  refine ⟨rfl, ?_, ?_⟩
  · intro r hr hmem
    rw [TIBETAudit.get_fixable_issues, List.mem_filter] at hmem
    simp [hr] at hmem
  · intro s
    rw [ScanResult.fixable_count, TIBETAudit.get_fixable_issues]
    exact List.countP_eq_length_filter _ _

/-- C6 witness: the PASSED-exclusion conjunct at a concrete list holding a
PASSED result that carries a fix action. -/
theorem C6_witness :
    rPassedFix ∉ TIBETAudit.get_fixable_issues [rPassedFix, rWarningFix] :=
  (C6_fixable_issues [rPassedFix, rWarningFix]).2.1 rPassedFix rfl

/-- C8: a path-resolution failure propagates out of scan as a fatal error
for the whole invocation; with a resolvable path, scan returns a complete
ScanResult whose result list covers every eligible check — one result per
eligible check, never a partially-populated or truncated list. -/
theorem C8_fatal_path_or_complete :
    (∀ (checks : List Check) (tibet_import : Except String Unit)
        (cats : Option (List String)) (e : String),
        TIBETAudit.scan checks (Except.error e) tibet_import cats
          = Except.error e)
    ∧ (∀ (checks : List Check) (sp : String)
        (tibet_import : Except String Unit) (cats : Option (List String)),
        ∃ s : ScanResult,
          TIBETAudit.scan checks (Except.ok sp) tibet_import cats
            = Except.ok s
          ∧ s.results = (checks.filter (TIBETAudit.eligible cats)).map
              (TIBETAudit.run_one
                { scan_path := sp
                  tibet_available :=
                    TIBETAudit.check_tibet_available tibet_import })
          ∧ s.results.length
              = (checks.filter (TIBETAudit.eligible cats)).length) := by
  constructor
  · intro checks tibet_import cats e
    rfl
  · intro checks sp tibet_import cats
    refine ⟨_, rfl, ?_, ?_⟩
    · exact TIBETAudit.run_checks_eq_filter_map checks _ cats
    · show (TIBETAudit.run_checks checks _ cats).length = _
      rw [TIBETAudit.run_checks_eq_filter_map]
      exact List.length_map _ _

/-- C9: the companion-capability probe is a total Boolean-valued function of
the import outcome — resolution failure yields false, success yields true,
no error is propagated — and scan evaluates it once per scan, so a single
Boolean constant is the tibet_available flag of the one shared context every
check in that scan receives. -/
theorem C9_probe_total_once :
    (∀ e : String,
        TIBETAudit.check_tibet_available (Except.error e) = false)
    ∧ (∀ u : Unit, TIBETAudit.check_tibet_available (Except.ok u) = true)
    ∧ (∀ (checks : List Check) (sp : String)
        (tibet_import : Except String Unit) (cats : Option (List String)),
        ∃ b : Bool,
          b = TIBETAudit.check_tibet_available tibet_import
          ∧ ∃ s : ScanResult,
              TIBETAudit.scan checks (Except.ok sp) tibet_import cats
                = Except.ok s
              ∧ s.results = (checks.filter (TIBETAudit.eligible cats)).map
                  (TIBETAudit.run_one
                    { scan_path := sp, tibet_available := b })) := by
  refine ⟨fun e => rfl, fun u => rfl, ?_⟩
  intro checks sp tibet_import cats
  exact ⟨_, rfl, _, rfl, TIBETAudit.run_checks_eq_filter_map checks _ cats⟩
